import Mathlib

/-!
Verification of the metric aggregation engine of `pullMSKStats.py`.

The Python source is shallowly embedded: dictionaries returned by the AWS
APIs become structures with `Option` fields (a missing key is `none`; raw
`d['k']` indexing is a `match` that fails into `Except.error`, modelling the
`KeyError` that Python would raise, while `d.get('k', default)` is an
`Option` projection with a default).  Float metric values are modelled as
`Rat`; the claims under study are about sums and selections of values, which
are exact.  The CloudWatch client is a record of the three backend
operations the source consumes (`list_metrics` pagination flattened,
`get_metric_data`, `get_metric_statistics`), each returning `Except` so that
a backend error is representable.
-/

/-- `METRIC_COLLECTION_PERIOD_DAYS` constant (line 15 of the source). -/
def METRIC_COLLECTION_PERIOD_DAYS : Nat := 7

/-- `AGGREGATION_DURATION_SECONDS` constant (line 16 of the source). -/
def AGGREGATION_DURATION_SECONDS : Nat := 3600

/-- `CLUSTER_INFO` column list (line 19 of the source). -/
def CLUSTER_INFO : List String :=
  ["Region", "ClusterName", "Availability", "Authentication", "KafkaVersion",
   "EnhancedMonitoring"]

/-- `INSTANCE_INFO` column list (line 20 of the source). -/
def INSTANCE_INFO : List String := ["NodeId", "NodeType", "VolumeSize (GB)"]

/-- `AVERAGE_METRICS` (line 21 of the source). -/
def AVERAGE_METRICS : List String :=
  ["BytesInPerSec", "BytesOutPerSec", "MessagesInPerSec", "KafkaDataLogsDiskUsed"]

/-- `PEAK_METRICS` (lines 22-25 of the source). -/
def PEAK_METRICS : List String :=
  AVERAGE_METRICS ++
  ["ClientConnectionCount", "PartitionCount", "GlobalTopicCount",
   "LeaderCount", "ReplicationBytesOutPerSec", "ReplicationBytesInPerSec"]

/-- `AVERAGE_METRICS_SERVERLESS` (line 26; defined by the source but unused). -/
def AVERAGE_METRICS_SERVERLESS : List String :=
  ["BytesInPerSec", "BytesOutPerSec", "MessagesInPerSec"]

/-- `PEAK_METRICS_SERVERLESS` (line 27; defined by the source but unused). -/
def PEAK_METRICS_SERVERLESS : List String :=
  ["BytesInPerSec", "BytesOutPerSec", "MessagesInPerSec"]

/-! ### Backend data model -/

/-- One entry of a `list_metrics` page: its dimension list, as
(name, value) pairs. -/
structure MetricEntry where
  Dimensions : List (String × String)
deriving Repr, DecidableEq

/-- One `MetricDataQuery` as assembled on lines 147-162 of the source.
The nested `MetricStat.Metric` record is flattened into the fields it
contributes (namespace is the constant "AWS/Kafka" and is omitted). -/
structure MetricDataQuery where
  Id : String
  MetricName : String
  Dimensions : List (String × String)
  Period : Nat
  Stat : String
  ReturnData : Bool
deriving Repr, DecidableEq

/-- One element of `response['MetricDataResults']`. -/
structure MetricDataResult where
  Id : String
  Values : List Rat
deriving Repr, DecidableEq

/-- The request record passed to `get_metric_statistics` (lines 262-270);
namespace is the constant "AWS/Kafka" and is omitted. -/
structure StatRequest where
  MetricName : String
  Dimensions : List (String × String)
  StartTime : Int
  EndTime : Int
  Period : Nat
  Statistics : List String
deriving Repr, DecidableEq

/-- One element of `response['Datapoints']`: both statistic fields the
source ever reads. -/
structure Datapoint where
  Maximum : Rat
  Average : Rat
deriving Repr, DecidableEq

/-- The `get_metric_statistics` response. -/
structure StatResponse where
  Datapoints : List Datapoint
deriving Repr, DecidableEq

/-- The CloudWatch client: the three backend operations consumed by the
source, each fallible (`Except` models a raised `botocore` error), plus the
ambient wall clock `now` (seconds) from which `end_time`/`start_time` are
derived. `listMetrics` takes the metric name and the cluster-dimension
filter value, with pagination flattened into one list. `getMetricData`
takes one batch of queries plus the window start/end. -/
structure CloudwatchClient where
  now : Int
  listMetrics : String → String → Except String (List MetricEntry)
  getMetricData : List MetricDataQuery → Int → Int → Except String (List MetricDataResult)
  getMetricStatistics : StatRequest → Except String StatResponse

/-! ### Dimension discovery (lines 94-123) -/

/-- The dimension key the source uses for the cluster identifier
(line 89: `cluster_dimension_key = 'Cluster Name'`). -/
def clusterDimensionKey : String := "Cluster Name"

/-- The value of the last dimension named "Topic" in a dimension list,
mirroring the loop on lines 115-120 which overwrites `topic_value` at each
"Topic" dimension; `none` when no "Topic" dimension exists
(`has_topic_dimension` stays false). -/
def lastTopicValue (dims : List (String × String)) : Option String :=
  dims.foldl (fun acc d => if d.1 = "Topic" then some d.2 else acc) none

/-- Whether some dimension matches the cluster filter
(`is_correct_cluster`, lines 116-117). -/
def hasClusterDim (dims : List (String × String)) (cluster_id : String) : Bool :=
  dims.any (fun d => d.1 = clusterDimensionKey && d.2 = cluster_id)

/-- One iteration of the topic-collection loop body (lines 108-123): add
the entry's topic value when the cluster matches, a "Topic" dimension is
present and its value is truthy (a non-empty string). The Python `set` is
modelled as a first-occurrence-ordered deduplicated list. -/
def discoverStep (cluster_id : String) (acc : List String) (e : MetricEntry) : List String :=
  match lastTopicValue e.Dimensions with
  | none => acc
  | some t =>
    if hasClusterDim e.Dimensions cluster_id = true ∧ t ≠ "" ∧ t ∉ acc then
      acc ++ [t]
    else acc

/-- The discovered topic list for a cluster (lines 107-123 applied to the
flattened pages). -/
def discoverTopics (entries : List MetricEntry) (cluster_id : String) : List String :=
  entries.foldl (discoverStep cluster_id) []

/-! ### Query construction (lines 136-162) -/

/-- The `Id` string built on line 146:
`f"query_{metric_name.lower().replace('-', '_').replace('.', '_')}_{i}"`. -/
def queryId (metric_name : String) (i : Nat) : String :=
  "query_" ++ ((metric_name.toLower.replace "-" "_").replace "." "_") ++ "_" ++ toString i

/-- One `MetricDataQuery` for topic `t` at enumeration index `i`
(lines 147-162). -/
def mkTopicQuery (metric_name cluster_id : String) (period : Nat) (stat : String)
    (i : Nat) (t : String) : MetricDataQuery :=
  { Id := queryId metric_name i
    MetricName := metric_name
    Dimensions := [(clusterDimensionKey, cluster_id), ("Topic", t)]
    Period := period
    Stat := stat
    ReturnData := true }

/-- The full `metric_data_queries` list (the `for i, topic_name in
enumerate(...)` loop, lines 144-162). -/
def buildQueries (metric_name cluster_id : String) (period : Nat) (stat : String)
    (topics : List String) : List MetricDataQuery :=
  topics.enum.map (fun p => mkTopicQuery metric_name cluster_id period stat p.1 p.2)

/-! ### Batching (lines 170-174) -/

/-- `max_queries_per_call = 500` (line 171). -/
def maxQueriesPerCall : Nat := 500

/-- Fuel-driven worker for the batching loop
`for i in range(0, len(queries), 500): queries[i:i+500]`: peel off the
first 500 elements while any remain. The fuel argument (instantiated with
the list length) only makes the recursion structural; each step consumes at
least one element, so the fuel never runs out. -/
def chunkGo {α : Type} : Nat → List α → List (List α)
  | _, [] => []
  | 0, _ :: _ => []
  | Nat.succ fuel, x :: xs =>
    (x :: xs).take maxQueriesPerCall :: chunkGo fuel ((x :: xs).drop maxQueriesPerCall)

/-- The batch partition of a query list into consecutive runs of at most
500 (lines 173-174). -/
def chunkList {α : Type} (l : List α) : List (List α) :=
  chunkGo l.length l

/-! ### Serverless scalar reduction (lines 51-232) -/

/-- The per-batch accumulation over `MetricDataResults` (lines 188-192):
add `Values[0]` of each result that has at least one value; a result with
no values contributes nothing (only an informational log). -/
def sumResults (results : List MetricDataResult) : Rat :=
  results.foldl
    (fun acc r =>
      match r.Values with
      | [] => acc
      | v :: _ => acc + v)
    0

/-- `get_cloudwatch_serverless_metric` (lines 51-232): discover the topics
advertising the metric for the cluster; return 0 on a discovery error or an
empty topic set; otherwise build one query per topic, split into batches of
at most 500, run each batch and sum each present result's first value,
skipping (not propagating) a failed batch. -/
def get_cloudwatch_serverless_metric (client : CloudwatchClient)
    (cluster_id metric_name : String) (is_peak : Bool) (time_period : Nat) : Rat :=
  let period := time_period * 24 * 60 * 60
  let end_time := client.now
  let start_time := client.now - (period : Int)
  match client.listMetrics metric_name cluster_id with
  | Except.error _ => 0
  | Except.ok entries =>
    let topics := discoverTopics entries cluster_id
    if topics = [] then 0
    else
      let stat := if is_peak then "Maximum" else "Average"
      let queries := buildQueries metric_name cluster_id period stat topics
      if queries = [] then 0
      else
        (chunkList queries).foldl
          (fun acc batch =>
            match client.getMetricData batch start_time end_time with
            | Except.error _ => acc
            | Except.ok results => acc + sumResults results)
          0

/-! ### Provisioned scalar reduction (lines 235-278) -/

/-- The dimension list built on lines 256-258: the cluster dimension, plus
the broker dimension when a node is given and the metric is not the
cluster-wide `GlobalTopicCount`. -/
def provisionedDimensions (cluster_id metric_name : String) (node : Option Nat) :
    List (String × String) :=
  [("Cluster Name", cluster_id)] ++
  (match node with
   | none => []
   | some n =>
     if metric_name ≠ "GlobalTopicCount" then [("Broker ID", toString n)] else [])

/-- The `get_metric_statistics` request assembled on lines 250-270. -/
def provisionedRequest (now : Int) (cluster_id metric_name : String) (is_peak : Bool)
    (node : Option Nat) (time_period : Nat) : StatRequest :=
  let period := time_period * 24 * 60 * 60
  { MetricName := metric_name
    Dimensions := provisionedDimensions cluster_id metric_name node
    StartTime := now - (period : Int)
    EndTime := now
    Period := period
    Statistics := if is_peak then ["Maximum"] else ["Average"] }

/-- `get_cloudwatch_metric` (lines 235-278): issue one statistics request;
on an empty `Datapoints` list return 0, otherwise the first datapoint's
`Maximum` (peak) or `Average` field. The backend call is NOT wrapped in a
`try`/`except` in the source, so a backend error propagates to the caller:
the embedding returns `Except.error` in that case. -/
def get_cloudwatch_metric (client : CloudwatchClient) (cluster_id metric_name : String)
    (is_peak : Bool) (node : Option Nat) (time_period : Nat) : Except String Rat := do
  let resp ← client.getMetricStatistics
    (provisionedRequest client.now cluster_id metric_name is_peak node time_period)
  match resp.Datapoints with
  | [] => pure 0
  | d :: _ => pure (if is_peak then d.Maximum else d.Average)

/-! ### Column headers (lines 281-293) -/

/-- The column list of `create_dataframe` (lines 289-292): cluster fields,
node fields, one "(avg)" column per average metric, one "(max)" column per
peak metric. -/
def createDataframeColumns : List String :=
  CLUSTER_INFO ++ INSTANCE_INFO ++
  AVERAGE_METRICS.map (fun metric => metric ++ " (avg)") ++
  PEAK_METRICS.map (fun metric => metric ++ " (max)")

/-! ### Cluster descriptors (the `details` dictionaries of lines 313-353) -/

/-- A `{'Enabled': ...}` sub-dictionary of the client-authentication
configuration. -/
structure EnabledFlag where
  Enabled : Option Bool
deriving Repr, DecidableEq

/-- The `Sasl` sub-dictionary: `Iam` and `Scram` flag groups. -/
structure SaslConfig where
  Iam : Option EnabledFlag
  Scram : Option EnabledFlag
deriving Repr, DecidableEq

/-- The `ClientAuthentication` dictionary as read on lines 347-352. -/
structure AuthConfig where
  Sasl : Option SaslConfig
  Tls : Option EnabledFlag
deriving Repr, DecidableEq

/-- `EbsStorageInfo` dictionary. -/
structure EbsStorageInfo where
  VolumeSize : Option Nat
deriving Repr, DecidableEq

/-- `StorageInfo` dictionary. -/
structure StorageInfoD where
  EbsStorageInfo : Option EbsStorageInfo
deriving Repr, DecidableEq

/-- `BrokerNodeGroupInfo` dictionary. -/
structure BrokerNodeGroupInfo where
  BrokerAZDistribution : Option String
  InstanceType : Option String
  StorageInfo : Option StorageInfoD
deriving Repr, DecidableEq

/-- `CurrentBrokerSoftwareInfo` dictionary. -/
structure SoftwareInfo where
  KafkaVersion : Option String
deriving Repr, DecidableEq

/-- The `Provisioned` sub-dictionary of a cluster descriptor, with the
fields lines 329-340 read. -/
structure ProvisionedInfo where
  ClientAuthentication : Option AuthConfig
  BrokerNodeGroupInfo : Option BrokerNodeGroupInfo
  CurrentBrokerSoftwareInfo : Option SoftwareInfo
  EnhancedMonitoring : Option String
  NumberOfBrokerNodes : Option Nat
deriving Repr, DecidableEq

/-- The `Serverless` sub-dictionary (line 342 reads only
`ClientAuthentication`). -/
structure ServerlessInfo where
  ClientAuthentication : Option AuthConfig
deriving Repr, DecidableEq

/-- One cluster descriptor (`details`), with the keys lines 313-342 read. -/
structure ClusterDetails where
  ClusterType : Option String
  Provisioned : Option ProvisionedInfo
  Serverless : Option ServerlessInfo
deriving Repr, DecidableEq

/-- One cell of an output row: Python strings, ints and floats, plus the
one-element tuple that line 336's trailing comma accidentally makes of the
Kafka version (`kafka_version = ... ['KafkaVersion'],`). -/
inductive Cell where
  | str : String → Cell
  | nat : Nat → Cell
  | num : Rat → Cell
  | tup : String → Cell
deriving Repr, DecidableEq

/-- The truthiness test `auth_config.get('Sasl', {}).get('Iam', {}).get('Enabled')`
(line 347): the chain of `.get` defaults collapses any missing level to
falsy `None`. -/
def saslIamEnabled (ac : AuthConfig) : Bool :=
  (((ac.Sasl.bind (fun s => s.Iam)).bind (fun f => f.Enabled)).getD false)

/-- Line 349: `auth_config.get('Sasl', {}).get('Scram', {}).get('Enabled')`. -/
def saslScramEnabled (ac : AuthConfig) : Bool :=
  (((ac.Sasl.bind (fun s => s.Scram)).bind (fun f => f.Enabled)).getD false)

/-- Line 351: `auth_config.get('Tls', {}).get('Enabled')`. -/
def tlsEnabled (ac : AuthConfig) : Bool :=
  ((ac.Tls.bind (fun f => f.Enabled)).getD false)

/-- The `auth_types` list and its join (lines 346-353):
`', '.join(auth_types) if auth_types else "None"`. -/
def authString (ac : AuthConfig) : String :=
  let auth_types : List String :=
    (if saslIamEnabled ac then ["SASL/IAM"] else []) ++
    (if saslScramEnabled ac then ["SASL/SCRAM"] else []) ++
    (if tlsEnabled ac then ["TLS"] else [])
  if auth_types = [] then "None" else String.intercalate ", " auth_types

/-- The `.get` chain of line 339:
`details.get('Provisioned', {}).get('BrokerNodeGroupInfo', {}).get('InstanceType', "N/A")`
without its final default. -/
def instanceTypeChain (d : ClusterDetails) : Option String :=
  (d.Provisioned.bind (fun p => p.BrokerNodeGroupInfo)).bind (fun b => b.InstanceType)

/-- The `.get` chain of line 340 (volume size) without its final default. -/
def volumeSizeChain (d : ClusterDetails) : Option Nat :=
  (((d.Provisioned.bind (fun p => p.BrokerNodeGroupInfo)).bind
    (fun b => b.StorageInfo)).bind (fun s => s.EbsStorageInfo)).bind
    (fun e => e.VolumeSize)

/-- Python's `str.upper()` for the character ranges used here. This is
exactly `String.toUpper` (`String.map Char.toUpper`), but spelled as a
structural map over the character list so that concrete evaluation
reduces inside proofs. -/
def pyUpper (s : String) : String := String.mk (s.data.map Char.toUpper)

/-- The normalized cluster type of line 314:
`details.get('ClusterType', 'CLUSTERLESS').upper()`. -/
def clusterTypeOf (d : ClusterDetails) : String :=
  pyUpper (d.ClusterType.getD "CLUSTERLESS")

/-- The per-cluster static data computed once before the node loop
(lines 316-363). -/
structure Statics where
  clusterType : String
  baseInfo : List Cell
  numberOfBrokerNodes : Nat
  instanceType : String
  volumeSize : Nat
deriving Repr, DecidableEq

/-- The AZ-distribution relabeling of lines 332-335. -/
def azLabel (raw : String) : String :=
  if raw = "DEFAULT" then "Multiple AZ"
  else if raw = "SINGLE" then "Single AZ"
  else raw

/-- Lines 319-363: derive the once-per-cluster fields. Raw dictionary
indexing (`details['Provisioned']['ClientAuthentication']` and so on) fails
with a `KeyError` when the key is absent, modelled as `Except.error`; the
`.get` chains (instance type, volume size, auth flags) degrade to their
defaults instead. The serverless branch keeps the defaults of lines
320-326 for version, monitoring, node count, instance type and volume
size. -/
def clusterStatics (region cluster_id : String) (d : ClusterDetails) :
    Except String Statics :=
  let ct := clusterTypeOf d
  if ct = "PROVISIONED" then
    match d.Provisioned with
    | none => Except.error "KeyError: Provisioned"
    | some prov =>
      match prov.ClientAuthentication with
      | none => Except.error "KeyError: ClientAuthentication"
      | some auth_config =>
        match prov.BrokerNodeGroupInfo with
        | none => Except.error "KeyError: BrokerNodeGroupInfo"
        | some bngi =>
          match bngi.BrokerAZDistribution with
          | none => Except.error "KeyError: BrokerAZDistribution"
          | some azRaw =>
            match prov.CurrentBrokerSoftwareInfo with
            | none => Except.error "KeyError: CurrentBrokerSoftwareInfo"
            | some swInfo =>
              match swInfo.KafkaVersion with
              | none => Except.error "KeyError: KafkaVersion"
              | some kafka_version =>
                match prov.EnhancedMonitoring with
                | none => Except.error "KeyError: EnhancedMonitoring"
                | some enhanced_monitoring =>
                  match prov.NumberOfBrokerNodes with
                  | none => Except.error "KeyError: NumberOfBrokerNodes"
                  | some n =>
                    Except.ok
                      { clusterType := ct
                        baseInfo :=
                          [Cell.str region, Cell.str cluster_id,
                           Cell.str (azLabel azRaw),
                           Cell.str (authString auth_config),
                           Cell.tup kafka_version,
                           Cell.str enhanced_monitoring]
                        numberOfBrokerNodes := n
                        instanceType := (instanceTypeChain d).getD "N/A"
                        volumeSize := (volumeSizeChain d).getD 0 }
  else
    match d.Serverless with
    | none => Except.error "KeyError: Serverless"
    | some sv =>
      match sv.ClientAuthentication with
      | none => Except.error "KeyError: ClientAuthentication"
      | some auth_config =>
        Except.ok
          { clusterType := ct
            baseInfo :=
              [Cell.str region, Cell.str cluster_id,
               Cell.str "Multiple AZ",
               Cell.str (authString auth_config),
               Cell.str "N/A",
               Cell.str "N/A"]
            numberOfBrokerNodes := 1
            instanceType := "N/A"
            volumeSize := 0 }

/-! ### Row assembly (lines 364-395) -/

/-- Except-valued `mapM` spelled out structurally, mirroring a Python list
comprehension in which any element may raise. -/
def mapME {α β : Type} (f : α → Except String β) : List α → Except String (List β)
  | [] => Except.ok []
  | x :: xs => do
    let y ← f x
    let ys ← mapME f xs
    pure (y :: ys)

/-- The metric cells of one row (lines 380-391). PROVISIONED: one
`get_cloudwatch_metric` per average then peak metric, with the node id and
the default `time_period` of 7 days. Otherwise: one
`get_cloudwatch_serverless_metric` per average then peak metric — the
source passes `node_id` as the fifth positional argument, which binds to
`time_period`, so the embedding passes `node_id` there too. -/
def rowMetrics (client : CloudwatchClient) (cluster_id clusterType : String)
    (node_id : Nat) : Except String (List Cell) :=
  if clusterType = "PROVISIONED" then do
    let avgs ← mapME
      (fun metric => get_cloudwatch_metric client cluster_id metric false (some node_id)
        METRIC_COLLECTION_PERIOD_DAYS) AVERAGE_METRICS
    let peaks ← mapME
      (fun metric => get_cloudwatch_metric client cluster_id metric true (some node_id)
        METRIC_COLLECTION_PERIOD_DAYS) PEAK_METRICS
    pure ((avgs ++ peaks).map Cell.num)
  else
    Except.ok
      (((AVERAGE_METRICS.map
          (fun metric => get_cloudwatch_serverless_metric client cluster_id metric false node_id)) ++
        (PEAK_METRICS.map
          (fun metric => get_cloudwatch_serverless_metric client cluster_id metric true node_id))).map
        Cell.num)

/-- One row of the node loop (lines 366-393): cluster fields on the first
row (`node_id = 1`, where `cluster_info_written` is still false), empty
strings afterwards; then node id, instance type, volume size; then the
metric cells. -/
def mkRow (client : CloudwatchClient) (cluster_id : String) (s : Statics)
    (node_id : Nat) : Except String (List Cell) := do
  let mets ← rowMetrics client cluster_id s.clusterType node_id
  pure ((if node_id = 1 then s.baseInfo else List.replicate 6 (Cell.str "")) ++
        [Cell.nat node_id, Cell.str s.instanceType, Cell.nat s.volumeSize] ++ mets)

/-- The whole per-cluster body of the loop of lines 313-393: compute the
statics, then one row per node id in `range(1, number_of_nodes + 1)`,
where `number_of_nodes` is the broker count for PROVISIONED and 1
otherwise (line 364). -/
def processCluster (client : CloudwatchClient) (region cluster_id : String)
    (d : ClusterDetails) : Except String (List (List Cell)) := do
  let s ← clusterStatics region cluster_id d
  let number_of_nodes := if s.clusterType = "PROVISIONED" then s.numberOfBrokerNodes else 1
  mapME (mkRow client cluster_id s) (List.range' 1 number_of_nodes)

/-- `get_msk_cluster_data` (lines 297-395) restricted to its row-building
core: iterate the active clusters in order, appending each cluster's rows.
An uncaught exception in one cluster's processing aborts the whole run, as
in the source. -/
def get_msk_cluster_data (client : CloudwatchClient) (region : String) :
    List (String × ClusterDetails) → Except String (List (List Cell))
  | [] => Except.ok []
  | (cluster_id, d) :: rest => do
    let rows ← processCluster client region cluster_id d
    let more ← get_msk_cluster_data client region rest
    pure (rows ++ more)

/-- The node count a cluster descriptor declares: its
`NumberOfBrokerNodes` for a PROVISIONED cluster (line 338/364), 1
otherwise (line 364). -/
def declaredNodeCount (d : ClusterDetails) : Nat :=
  if clusterTypeOf d = "PROVISIONED" then
    (d.Provisioned.bind (fun p => p.NumberOfBrokerNodes)).getD 0
  else 1

/-! ### Concrete clients and fixtures used by witnesses and counterexamples -/

/-- A `list_metrics` entry advertising topic `t` for cluster `cid`: the
dimension shape MSK serverless exposes and the discovery loop consumes. -/
def topicEntry (cid t : String) : MetricEntry :=
  { Dimensions := [(clusterDimensionKey, cid), ("Topic", t)] }

/-- The topic a constructed query addresses (the backend reads the "Topic"
dimension the source put into the query on lines 153-156). -/
def topicOfQuery (q : MetricDataQuery) : String :=
  (lastTopicValue q.Dimensions).getD ""

/-- A backend advertising exactly the topics `T` for cluster `cid`, and
answering each query for topic `t` with the datapoint list `w t` (empty =
no data for the window, singleton = the expected one aggregated value). -/
def mkTopicsClient (cid : String) (T : List String) (w : String → List Rat) :
    CloudwatchClient :=
  { now := 0
    listMetrics := fun _ _ => Except.ok (T.map (topicEntry cid))
    getMetricData := fun qs _ _ =>
      Except.ok (qs.map (fun q => { Id := q.Id, Values := w (topicOfQuery q) }))
    getMetricStatistics := fun _ => Except.error "unused" }

/-- A concrete one-element query list for the C4 witness. -/
def exampleQueryList : List MetricDataQuery :=
  [{ Id := "q0", MetricName := "BytesInPerSec", Dimensions := [], Period := 604800,
     Stat := "Average", ReturnData := true }]

/-- A client whose statistics fetch always yields the given response. -/
def constStatClient (resp : StatResponse) : CloudwatchClient :=
  { now := 0
    listMetrics := fun _ _ => Except.error "unused"
    getMetricData := fun _ _ _ => Except.error "unused"
    getMetricStatistics := fun _ => Except.ok resp }

/-- A client whose statistics fetch raises a backend error (a
`botocore.exceptions.ClientError` in the source); its other operations
succeed trivially. -/
def raisingStatClient : CloudwatchClient :=
  { now := 0
    listMetrics := fun _ _ => Except.ok []
    getMetricData := fun _ _ _ => Except.ok []
    getMetricStatistics := fun _ => Except.error "ClientError" }

/-- A client whose series listing raises. -/
def raisingListClient : CloudwatchClient :=
  { now := 0
    listMetrics := fun _ _ => Except.error "AccessDenied"
    getMetricData := fun _ _ _ => Except.ok []
    getMetricStatistics := fun _ => Except.ok { Datapoints := [] } }

/-- A client whose batched data fetch always raises. -/
def raisingDataClient : CloudwatchClient :=
  { now := 0
    listMetrics := fun _ _ => Except.ok [⟨[(clusterDimensionKey, "demo"), ("Topic", "t1")]⟩]
    getMetricData := fun _ _ _ => Except.error "Throttling"
    getMetricStatistics := fun _ => Except.ok { Datapoints := [] } }

/-- A quiescent backend: no advertised series, no data, empty datapoint
lists; every metric degrades to 0. -/
def flatClient : CloudwatchClient :=
  { now := 0
    listMetrics := fun _ _ => Except.ok []
    getMetricData := fun _ _ _ => Except.ok []
    getMetricStatistics := fun _ => Except.ok { Datapoints := [] } }

/-- A backend that reveals the aggregation window of each query: every
returned statistic is 7 when the query's `Period` is the 7-day window
(604800 seconds) and 1 otherwise. -/
def periodProbe (cid : String) : CloudwatchClient :=
  { now := 1000000
    listMetrics := fun _ _ => Except.ok [topicEntry cid "t1"]
    getMetricData := fun qs _ _ => Except.ok (qs.map (fun q =>
        { Id := q.Id, Values := [if q.Period = 604800 then (7 : Rat) else 1] }))
    getMetricStatistics := fun req => Except.ok
        { Datapoints := [{ Maximum := if req.Period = 604800 then 7 else 1,
                           Average := if req.Period = 604800 then 7 else 1 }] } }

/-- A serverless cluster descriptor with an empty (hence "None")
authentication configuration. -/
def serverlessDetails : ClusterDetails :=
  { ClusterType := some "SERVERLESS"
    Provisioned := none
    Serverless := some { ClientAuthentication := some { Sasl := none, Tls := none } } }

/-- A fully-populated one-broker PROVISIONED cluster descriptor. -/
def provisionedDetails1 : ClusterDetails :=
  { ClusterType := some "PROVISIONED"
    Provisioned := some
      { ClientAuthentication := some { Sasl := none, Tls := none }
        BrokerNodeGroupInfo := some
          { BrokerAZDistribution := some "DEFAULT"
            InstanceType := some "kafka.m5.large"
            StorageInfo := some { EbsStorageInfo := some { VolumeSize := some 100 } } }
        CurrentBrokerSoftwareInfo := some { KafkaVersion := some "3.6.0" }
        EnhancedMonitoring := some "DEFAULT"
        NumberOfBrokerNodes := some 1 }
    Serverless := none }

/-- The same cluster with two broker nodes. -/
def provisionedDetails2 : ClusterDetails :=
  { ClusterType := some "PROVISIONED"
    Provisioned := some
      { ClientAuthentication := some { Sasl := none, Tls := none }
        BrokerNodeGroupInfo := some
          { BrokerAZDistribution := some "DEFAULT"
            InstanceType := some "kafka.m5.large"
            StorageInfo := some { EbsStorageInfo := some { VolumeSize := some 100 } } }
        CurrentBrokerSoftwareInfo := some { KafkaVersion := some "3.6.0" }
        EnhancedMonitoring := some "DEFAULT"
        NumberOfBrokerNodes := some 2 }
    Serverless := none }

/-- `provisionedDetails1` with its `ClientAuthentication` key absent. -/
def noAuthDetails : ClusterDetails :=
  { ClusterType := some "PROVISIONED"
    Provisioned := some
      { ClientAuthentication := none
        BrokerNodeGroupInfo := some
          { BrokerAZDistribution := some "DEFAULT"
            InstanceType := some "kafka.m5.large"
            StorageInfo := some { EbsStorageInfo := some { VolumeSize := some 100 } } }
        CurrentBrokerSoftwareInfo := some { KafkaVersion := some "3.6.0" }
        EnhancedMonitoring := some "DEFAULT"
        NumberOfBrokerNodes := some 1 }
    Serverless := none }

/-- A PROVISIONED descriptor whose optional instance type and storage
chain are absent (the `.get`-protected fields of lines 339-340). -/
def sentinelDetails : ClusterDetails :=
  { ClusterType := some "PROVISIONED"
    Provisioned := some
      { ClientAuthentication := some { Sasl := none, Tls := none }
        BrokerNodeGroupInfo := some
          { BrokerAZDistribution := some "SINGLE"
            InstanceType := none
            StorageInfo := none }
        CurrentBrokerSoftwareInfo := some { KafkaVersion := some "3.6.0" }
        EnhancedMonitoring := some "PER_BROKER"
        NumberOfBrokerNodes := some 1 }
    Serverless := none }

/-- The statics the code computes for `sentinelDetails` in region "r",
cluster id "pc": sentinels "N/A" and 0 for the missing optional fields. -/
def sentinelStatics : Statics :=
  { clusterType := "PROVISIONED"
    baseInfo := [Cell.str "r", Cell.str "pc", Cell.str "Single AZ", Cell.str "None",
                 Cell.tup "3.6.0", Cell.str "PER_BROKER"]
    numberOfBrokerNodes := 1
    instanceType := "N/A"
    volumeSize := 0 }

/-- The statics the code computes for `serverlessDetails` in region "r",
cluster id "sc". -/
def serverlessStatics : Statics :=
  { clusterType := "SERVERLESS"
    baseInfo := [Cell.str "r", Cell.str "sc", Cell.str "Multiple AZ", Cell.str "None",
                 Cell.str "N/A", Cell.str "N/A"]
    numberOfBrokerNodes := 1
    instanceType := "N/A"
    volumeSize := 0 }

/-- The statics the code computes for `provisionedDetails2` in region "r",
cluster id "pc". -/
def provisionedStatics2 : Statics :=
  { clusterType := "PROVISIONED"
    baseInfo := [Cell.str "r", Cell.str "pc", Cell.str "Multiple AZ", Cell.str "None",
                 Cell.tup "3.6.0", Cell.str "DEFAULT"]
    numberOfBrokerNodes := 2
    instanceType := "kafka.m5.large"
    volumeSize := 100 }

/-- The row the assembler emits for `serverlessDetails` under
`flatClient` (every metric 0). -/
def flatServerlessRow : List Cell :=
  [Cell.str "r", Cell.str "sc", Cell.str "Multiple AZ", Cell.str "None",
   Cell.str "N/A", Cell.str "N/A", Cell.nat 1, Cell.str "N/A", Cell.nat 0] ++
  List.replicate 14 (Cell.num 0)

/-- The first row the assembler emits for `provisionedDetails2` under
`flatClient`. -/
def flatProvisionedRow1 : List Cell :=
  [Cell.str "r", Cell.str "pc", Cell.str "Multiple AZ", Cell.str "None",
   Cell.tup "3.6.0", Cell.str "DEFAULT", Cell.nat 1, Cell.str "kafka.m5.large",
   Cell.nat 100] ++ List.replicate 14 (Cell.num 0)

/-- The second row the assembler emits for `provisionedDetails2` under
`flatClient`: empty strings in every cluster-level column. -/
def flatProvisionedRow2 : List Cell :=
  List.replicate 6 (Cell.str "") ++
  [Cell.nat 2, Cell.str "kafka.m5.large", Cell.nat 100] ++
  List.replicate 14 (Cell.num 0)

/-! ## Helper lemmas: batching -/

/-- Concatenating the batches reproduces the input, for sufficient fuel. -/
theorem chunkGo_join {α : Type} :
    ∀ (fuel : Nat) (l : List α), l.length ≤ fuel → (chunkGo fuel l).flatten = l := by
  intro fuel
  induction fuel with
  | zero =>
    intro l hl
    cases l with
    | nil => rfl
    | cons x xs => simp at hl
  | succ fuel ih =>
    intro l hl
    cases l with
    | nil => rfl
    | cons x xs =>
      have hdrop : ((x :: xs).drop maxQueriesPerCall).length ≤ fuel := by
        rw [List.length_drop]
        simp only [maxQueriesPerCall]
        simp only [List.length_cons] at hl ⊢
        omega
      simp only [chunkGo, List.flatten, ih _ hdrop, List.take_append_drop]

/-- Every batch produced by `chunkGo` has at most `maxQueriesPerCall`
elements. -/
theorem chunkGo_length_le {α : Type} :
    ∀ (fuel : Nat) (l : List α), ∀ b ∈ chunkGo fuel l, b.length ≤ maxQueriesPerCall := by
  intro fuel
  induction fuel with
  | zero =>
    intro l b hb
    cases l <;> simp [chunkGo] at hb
  | succ fuel ih =>
    intro l b hb
    cases l with
    | nil => simp [chunkGo] at hb
    | cons x xs =>
      simp only [chunkGo, List.mem_cons] at hb
      rcases hb with hb | hb
      · subst hb
        rw [List.length_take]
        exact min_le_left _ _
      · exact ih _ _ hb

/-- C4: the batch partition used by the serverless executor (`chunkList`,
the `range(0, len, 500)` slicing loop of lines 173-174, folded over by
`get_cloudwatch_serverless_metric`) is order-preserving and exhaustive:
concatenating the batches in submission order reproduces the original
query sequence exactly, and every batch contains at most 500 queries. -/
theorem batch_partition_exact_and_bounded (qs : List MetricDataQuery) :
    (chunkList qs).flatten = qs ∧ ∀ b ∈ chunkList qs, b.length ≤ 500 :=
  ⟨chunkGo_join qs.length qs (Nat.le_refl _),
   fun b hb => chunkGo_length_le qs.length qs b hb⟩

/-- Witness for C4 at a concrete query list. -/
theorem batch_partition_exact_and_bounded_witness :
    (chunkList exampleQueryList).flatten = exampleQueryList ∧
      exampleQueryList.length ≤ 500 :=
  ⟨(batch_partition_exact_and_bounded exampleQueryList).1,
   (batch_partition_exact_and_bounded exampleQueryList).2 exampleQueryList (by decide)⟩

/-! ## Helper lemmas: the provisioned reduction -/

/-- Successful statistics fetch: the provisioned reduction returns the
first datapoint's selected statistic, or 0 when there are none. -/
theorem get_cloudwatch_metric_ok (client : CloudwatchClient)
    (cluster_id metric_name : String) (is_peak : Bool) (node : Option Nat)
    (time_period : Nat) (resp : StatResponse)
    (h : client.getMetricStatistics
      (provisionedRequest client.now cluster_id metric_name is_peak node time_period)
      = Except.ok resp) :
    get_cloudwatch_metric client cluster_id metric_name is_peak node time_period
      = Except.ok (match resp.Datapoints with
        | [] => 0
        | d :: _ => if is_peak then d.Maximum else d.Average) := by
  unfold get_cloudwatch_metric
  rw [h]
  obtain ⟨dps⟩ := resp
  cases dps <;> rfl

/-- C2: with exactly one returned datapoint the provisioned reduction
returns its `Maximum` field for a peak aggregation and its `Average` field
otherwise; with zero datapoints it returns 0 (lines 271-278). -/
theorem provisioned_single_datapoint (client : CloudwatchClient)
    (cluster_id metric_name : String) (is_peak : Bool) (node : Option Nat)
    (time_period : Nat) (d : Datapoint) :
    (client.getMetricStatistics
        (provisionedRequest client.now cluster_id metric_name is_peak node time_period)
        = Except.ok { Datapoints := [d] } →
      get_cloudwatch_metric client cluster_id metric_name is_peak node time_period
        = Except.ok (if is_peak then d.Maximum else d.Average)) ∧
    (client.getMetricStatistics
        (provisionedRequest client.now cluster_id metric_name is_peak node time_period)
        = Except.ok { Datapoints := [] } →
      get_cloudwatch_metric client cluster_id metric_name is_peak node time_period
        = Except.ok 0) := by
  constructor
  · intro h
    exact get_cloudwatch_metric_ok client cluster_id metric_name is_peak node time_period _ h
  · intro h
    exact get_cloudwatch_metric_ok client cluster_id metric_name is_peak node time_period _ h

/-- Witness for C2: one datapoint (Maximum 9, Average 4) and zero
datapoints, at concrete inputs. -/
theorem provisioned_single_datapoint_witness :
    get_cloudwatch_metric (constStatClient { Datapoints := [{ Maximum := 9, Average := 4 }] })
        "demo" "BytesInPerSec" true (some 1) 7 = Except.ok 9 ∧
    get_cloudwatch_metric (constStatClient { Datapoints := [] })
        "demo" "BytesInPerSec" false (some 1) 7 = Except.ok 0 :=
  ⟨(provisioned_single_datapoint (constStatClient { Datapoints := [{ Maximum := 9, Average := 4 }] })
      "demo" "BytesInPerSec" true (some 1) 7 { Maximum := 9, Average := 4 }).1 rfl,
   (provisioned_single_datapoint (constStatClient { Datapoints := [] })
      "demo" "BytesInPerSec" false (some 1) 7 { Maximum := 9, Average := 4 }).2 rfl⟩

/-! ## C3: error policy of the two scalar reductions -/

/-- Counterexample to C3: the provisioned reduction
`get_cloudwatch_metric` has no `try`/`except` around its backend call
(lines 262-278), so a backend error during the statistics fetch propagates
to the caller instead of being converted to 0.0. -/
theorem provisioned_reduction_raises_counterexample :
    get_cloudwatch_metric raisingStatClient "demo" "BytesInPerSec" false (some 1) 7
      = Except.error "ClientError" := rfl

/-- A fold of batches all of whose backend calls fail leaves the
accumulator untouched. -/
theorem foldl_batches_all_error (client : CloudwatchClient) (s e : Int)
    (err : String) (h : ∀ b s' e', client.getMetricData b s' e' = Except.error err) :
    ∀ (chunks : List (List MetricDataQuery)) (a : Rat),
      chunks.foldl
        (fun acc batch =>
          match client.getMetricData batch s e with
          | Except.error _ => acc
          | Except.ok results => acc + sumResults results)
        a = a := by
  intro chunks
  induction chunks with
  | nil => intro a; rfl
  | cons b bs ih =>
    intro a
    simp only [List.foldl, h b s e]
    exact ih a

/-- C3 amended: the serverless reduction never propagates a backend
failure — a discovery error returns 0.0 (lines 125-128) and batch errors
are swallowed, so if every batch fails it still returns 0 (lines 221-230) —
but the provisioned reduction propagates a backend error raised by its
statistics fetch to the caller. -/
theorem scalar_reduction_error_policy (client : CloudwatchClient)
    (cluster_id metric_name : String) (is_peak : Bool) (node : Option Nat)
    (time_period : Nat) (err : String) :
    (client.listMetrics metric_name cluster_id = Except.error err →
        get_cloudwatch_serverless_metric client cluster_id metric_name is_peak time_period = 0) ∧
    ((∀ b s e, client.getMetricData b s e = Except.error err) →
        get_cloudwatch_serverless_metric client cluster_id metric_name is_peak time_period = 0) ∧
    (client.getMetricStatistics
        (provisionedRequest client.now cluster_id metric_name is_peak node time_period)
        = Except.error err →
      get_cloudwatch_metric client cluster_id metric_name is_peak node time_period
        = Except.error err) := by
  refine ⟨?_, ?_, ?_⟩
  · intro h
    unfold get_cloudwatch_serverless_metric
    rw [h]
  · intro h
    unfold get_cloudwatch_serverless_metric
    cases hl : client.listMetrics metric_name cluster_id with
    | error e => rfl
    | ok entries =>
      simp only []
      split
      · rfl
      · split <;> split <;>
          first
            | rfl
            | exact foldl_batches_all_error client _ _ err h _ 0
  · intro h
    unfold get_cloudwatch_metric
    rw [h]
    rfl

/-- Witness for the amended C3 at concrete clients: discovery failure gives
0, all-batches failure gives 0, and the provisioned fetch error
propagates. -/
theorem scalar_reduction_error_policy_witness :
    get_cloudwatch_serverless_metric raisingListClient "demo" "BytesInPerSec" false 7 = 0 ∧
    get_cloudwatch_serverless_metric raisingDataClient "demo" "BytesInPerSec" true 7 = 0 ∧
    get_cloudwatch_metric raisingStatClient "demo" "BytesInPerSec" false (some 1) 7
      = Except.error "ClientError" :=
  ⟨(scalar_reduction_error_policy raisingListClient "demo" "BytesInPerSec" false (some 1) 7
      "AccessDenied").1 rfl,
   (scalar_reduction_error_policy raisingDataClient "demo" "BytesInPerSec" true (some 1) 7
      "Throttling").2.1 (fun _ _ _ => rfl),
   (scalar_reduction_error_policy raisingStatClient "demo" "BytesInPerSec" false (some 1) 7
      "ClientError").2.2 rfl⟩

/-! ## Helper lemmas: serverless reduction over an advertised topic set -/

/-- The last "Topic" dimension of a topic entry is its topic. -/
theorem lastTopicValue_topicEntry (cid t : String) :
    lastTopicValue (topicEntry cid t).Dimensions = some t := rfl

/-- A topic entry for `cid` passes the cluster-dimension check. -/
theorem hasClusterDim_topicEntry (cid t : String) :
    hasClusterDim (topicEntry cid t).Dimensions cid = true := by
  simp [hasClusterDim, topicEntry]

/-- A query built for topic `t` addresses topic `t`. -/
theorem topicOfQuery_mkTopicQuery (metric_name cluster_id : String) (period : Nat)
    (stat : String) (i : Nat) (t : String) :
    topicOfQuery (mkTopicQuery metric_name cluster_id period stat i t) = t := rfl

/-- Discovery over entries advertising exactly the (duplicate-free,
non-empty-named) topics `T` collects `acc ++ T`. -/
theorem discoverTopics_go (cid : String) :
    ∀ (T acc : List String), T.Nodup → (∀ t ∈ T, t ≠ "") → (∀ t ∈ T, t ∉ acc) →
      List.foldl (discoverStep cid) acc (T.map (topicEntry cid)) = acc ++ T := by
  intro T
  induction T with
  | nil => intro acc _ _ _; simp
  | cons t T ih =>
    intro acc hnd hne hdis
    have hstep : discoverStep cid acc (topicEntry cid t) = acc ++ [t] := by
      simp only [discoverStep, lastTopicValue_topicEntry]
      rw [if_pos ⟨hasClusterDim_topicEntry cid t, hne t (by simp), hdis t (by simp)⟩]
    simp only [List.map_cons, List.foldl_cons, hstep]
    have hnd' := (List.nodup_cons.mp hnd).2
    have hm := (List.nodup_cons.mp hnd).1
    have hdis' : ∀ x ∈ T, x ∉ acc ++ [t] := by
      intro x hx
      simp only [List.mem_append, List.mem_singleton]
      rintro (hxa | hxt)
      · exact hdis x (by simp [hx]) hxa
      · exact hm (hxt ▸ hx)
    rw [ih (acc ++ [t]) hnd' (fun x hx => hne x (by simp [hx])) hdis']
    simp

/-- Discovery over `T.map (topicEntry cid)` yields exactly `T`. -/
theorem discoverTopics_topicEntries (cid : String) (T : List String)
    (hnd : T.Nodup) (hne : ∀ t ∈ T, t ≠ "") :
    discoverTopics (T.map (topicEntry cid)) cid = T := by
  unfold discoverTopics
  rw [discoverTopics_go cid T [] hnd hne (by simp)]
  simp

/-- Shifting the accumulator out of the `sumResults` fold. -/
theorem sumResults_shift :
    ∀ (rs : List MetricDataResult) (a : Rat),
      List.foldl (fun acc r => match r.Values with | [] => acc | v :: _ => acc + v) a rs
        = a + List.foldl (fun acc r => match r.Values with | [] => acc | v :: _ => acc + v) 0 rs := by
  intro rs
  induction rs with
  | nil => intro a; simp
  | cons r rs ih =>
    intro a
    simp only [List.foldl_cons]
    rw [ih, ih (match r.Values with | [] => (0:Rat) | v :: _ => 0 + v)]
    cases hv : r.Values <;> (simp [hv]; try ring)

/-- `sumResults` adds each result's first value (0 when it has none). -/
theorem sumResults_eq (rs : List MetricDataResult) :
    sumResults rs = (rs.map (fun r => r.Values.headD 0)).sum := by
  induction rs with
  | nil => rfl
  | cons r rs ih =>
    show List.foldl _ _ (r :: rs) = _
    simp only [List.foldl_cons]
    rw [sumResults_shift rs]
    have : List.foldl (fun acc r => match r.Values with | [] => acc | v :: _ => acc + v) 0 rs
        = sumResults rs := rfl
    rw [this, ih, List.map_cons, List.sum_cons]
    cases hv : r.Values <;> simp [hv]

/-- Folding `acc + f batch` over a batch list sums `f` over the batches. -/
theorem foldl_batches_sum (f : List MetricDataQuery → Rat) :
    ∀ (chunks : List (List MetricDataQuery)) (a : Rat),
      chunks.foldl (fun acc b => acc + f b) a = a + (chunks.map f).sum := by
  intro chunks
  induction chunks with
  | nil => intro a; simp
  | cons b bs ih =>
    intro a
    simp only [List.foldl_cons, List.map_cons, List.sum_cons]
    rw [ih]
    ring

/-- End-to-end behavior of `get_cloudwatch_serverless_metric` against a
backend advertising the topic set `T` and answering with datapoint lists
`w`: the reduction returns the sum over `T` of each topic's first returned
value, counting 0 for a topic with no datapoints. -/
theorem serverless_topics_sum (cid metric_name : String) (is_peak : Bool) (tp : Nat)
    (T : List String) (w : String → List Rat)
    (hnd : T.Nodup) (hne : ∀ t ∈ T, t ≠ "") :
    get_cloudwatch_serverless_metric (mkTopicsClient cid T w) cid metric_name is_peak tp
      = (T.map (fun t => (w t).headD 0)).sum := by
  unfold get_cloudwatch_serverless_metric
  simp only [mkTopicsClient]
  rw [discoverTopics_topicEntries cid T hnd hne]
  cases T with
  | nil => simp
  | cons t T' =>
    rw [if_neg (by simp)]
    have hql : (buildQueries metric_name cid (tp * 24 * 60 * 60)
        (if is_peak then "Maximum" else "Average") (t :: T')).length = T'.length + 1 := by
      simp [buildQueries, List.enum_length]
    rw [if_neg (by intro hc; rw [hc] at hql; simp at hql)]
    rw [foldl_batches_sum (fun b => sumResults
      (b.map (fun q => { Id := q.Id, Values := w (topicOfQuery q) })))]
    rw [zero_add]
    simp only [sumResults_eq, List.map_map]
    rw [show ((fun r => (MetricDataResult.Values r).headD 0) ∘
        (fun q => { Id := q.Id, Values := w (topicOfQuery q) } : MetricDataQuery → MetricDataResult))
      = (fun q => (w (topicOfQuery q)).headD 0) from rfl]
    rw [show (fun b : List MetricDataQuery =>
        (List.map (fun q => (w (topicOfQuery q)).headD 0) b).sum)
      = (List.sum ∘ List.map (fun q => (w (topicOfQuery q)).headD 0)) from rfl]
    rw [← List.map_map, ← List.sum_flatten, ← List.map_flatten]
    simp only [chunkList]
    rw [chunkGo_join _ _ (Nat.le_refl _)]
    simp only [buildQueries, List.map_map]
    have hcomp : ((fun q => (w (topicOfQuery q)).headD 0) ∘
        (fun p : Nat × String =>
          mkTopicQuery metric_name cid (tp * 24 * 60 * 60)
            (if is_peak then "Maximum" else "Average") p.1 p.2))
        = (fun p : Nat × String => (w p.2).headD 0) := by
      funext p
      simp [topicOfQuery_mkTopicQuery]
    rw [hcomp]
    rw [show (fun p : Nat × String => (w p.2).headD 0)
      = ((fun t => (w t).headD 0) ∘ Prod.snd) from rfl]
    rw [← List.map_map, List.enum_map_snd]

/-- C1: for a serverless cluster whose discovered topic set is `T`, with a
single returned datapoint `v t` per topic (`none` meaning the topic's
query returned no datapoints and contributes 0), the serverless reduction
returns the sum of the per-topic values over `T`; for an empty `T` it
returns 0. -/
theorem serverless_reduction_sums_topic_values (cluster_id metric_name : String)
    (is_peak : Bool) (time_period : Nat) (T : List String) (v : String → Option Rat)
    (hnd : T.Nodup) (hne : ∀ t ∈ T, t ≠ "") :
    get_cloudwatch_serverless_metric
        (mkTopicsClient cluster_id T (fun t => (v t).toList))
        cluster_id metric_name is_peak time_period
      = (T.map (fun t => (v t).getD 0)).sum := by
  rw [serverless_topics_sum cluster_id metric_name is_peak time_period T
    (fun t => (v t).toList) hnd hne]
  congr 1
  apply List.map_congr_left
  intro t _
  cases v t <;> rfl

/-- The per-topic value assignment of the C1 witness: topic "a" has the
single datapoint 5, topic "b" has no datapoints. -/
def witnessTopicValues : String → Option Rat :=
  fun t => if t = "a" then some 5 else none

/-- Witness for C1: topics {"a", "b"} with values 5 and no-data sum to 5. -/
theorem serverless_reduction_sums_topic_values_witness :
    get_cloudwatch_serverless_metric
        (mkTopicsClient "demo" ["a", "b"] (fun t => (witnessTopicValues t).toList))
        "demo" "BytesInPerSec" false 7 = 5 :=
  (serverless_reduction_sums_topic_values "demo" "BytesInPerSec" false 7 ["a", "b"]
    witnessTopicValues (by decide) (by decide)).trans (by simp [witnessTopicValues])

/-- C10: only the first datapoint of a query result contributes. For the
provisioned reduction a response with two or more datapoints yields the
first one's statistic (lines 271-278); for the serverless reduction each
result contributes its `Values[0]` only, so the reduction over topic set
`T` with full datapoint lists `w t` sums each list's head (lines 188-192). -/
theorem reductions_use_first_datapoint_only (client : CloudwatchClient)
    (cluster_id metric_name : String) (is_peak : Bool) (node : Option Nat)
    (time_period : Nat) (d1 d2 : Datapoint) (ds : List Datapoint)
    (T : List String) (w : String → List Rat)
    (hnd : T.Nodup) (hne : ∀ t ∈ T, t ≠ "")
    (h : client.getMetricStatistics
        (provisionedRequest client.now cluster_id metric_name is_peak node time_period)
      = Except.ok { Datapoints := d1 :: d2 :: ds }) :
    get_cloudwatch_metric client cluster_id metric_name is_peak node time_period
        = Except.ok (if is_peak then d1.Maximum else d1.Average) ∧
    get_cloudwatch_serverless_metric (mkTopicsClient cluster_id T w)
        cluster_id metric_name is_peak time_period
      = (T.map (fun t => (w t).headD 0)).sum :=
  ⟨get_cloudwatch_metric_ok client cluster_id metric_name is_peak node time_period _ h,
   serverless_topics_sum cluster_id metric_name is_peak time_period T w hnd hne⟩

/-- The multi-datapoint topic answers of the C10 witness: every topic
returns the datapoints [2, 99], of which only the first may count. -/
def witnessMultiValues : String → List Rat := fun _ => [2, 99]

/-- Witness for C10: a two-datapoint provisioned response yields the first
datapoint's Maximum, and a serverless topic answering [2, 99] contributes
only 2. -/
theorem reductions_use_first_datapoint_only_witness :
    get_cloudwatch_metric
        (constStatClient { Datapoints := [{ Maximum := 3, Average := 2 },
                                          { Maximum := 9, Average := 8 }] })
        "demo" "PartitionCount" true (some 1) 7 = Except.ok 3 ∧
    get_cloudwatch_serverless_metric (mkTopicsClient "demo" ["a"] witnessMultiValues)
        "demo" "PartitionCount" true 7 = 2 := by
  have h := reductions_use_first_datapoint_only
    (constStatClient { Datapoints := [{ Maximum := 3, Average := 2 },
                                      { Maximum := 9, Average := 8 }] })
    "demo" "PartitionCount" true (some 1) 7
    { Maximum := 3, Average := 2 } { Maximum := 9, Average := 8 } []
    ["a"] witnessMultiValues (by decide) (by decide) rfl
  exact ⟨h.1, h.2.trans (by simp [witnessMultiValues])⟩

/-! ## Helper lemmas: row assembly -/

/-- Success inversion for `Except` bind. -/
theorem except_bind_ok {α β : Type} {a : Except String α} {f : α → Except String β}
    {b : β} : a >>= f = Except.ok b ↔ ∃ x, a = Except.ok x ∧ f x = Except.ok b := by
  cases a with
  | error e => simp [Bind.bind, Except.bind]
  | ok x => simp [Bind.bind, Except.bind]

/-- `mapME` success preserves length. -/
theorem mapME_ok_length {α β : Type} (f : α → Except String β) :
    ∀ (l : List α) (r : List β), mapME f l = Except.ok r → r.length = l.length := by
  intro l
  induction l with
  | nil =>
    intro r h
    simp only [mapME, Except.ok.injEq] at h
    subst h
    rfl
  | cons x xs ih =>
    intro r h
    simp only [mapME, except_bind_ok, pure, Except.pure, Except.ok.injEq] at h
    obtain ⟨y, _, ys, hys, hr⟩ := h
    subst hr
    simp [ih ys hys]

/-- `mapME` success: each output element comes from some input element. -/
theorem mapME_ok_mem {α β : Type} (f : α → Except String β) :
    ∀ (l : List α) (r : List β), mapME f l = Except.ok r →
      ∀ y ∈ r, ∃ x ∈ l, f x = Except.ok y := by
  intro l
  induction l with
  | nil =>
    intro r h y hy
    simp only [mapME, Except.ok.injEq] at h
    subst h
    simp at hy
  | cons x xs ih =>
    intro r h y hy
    simp only [mapME, except_bind_ok, pure, Except.pure, Except.ok.injEq] at h
    obtain ⟨z, hz, ys, hys, hr⟩ := h
    subst hr
    rcases List.mem_cons.mp hy with hy | hy
    · exact ⟨x, List.mem_cons_self x xs, hy ▸ hz⟩
    · obtain ⟨x', hx', hfx'⟩ := ih ys hys y hy
      exact ⟨x', List.mem_cons_of_mem x hx', hfx'⟩

/-- `mapME` success: the `i`-th output comes from the `i`-th input. -/
theorem mapME_ok_get (f : Nat → Except String (List Cell)) :
    ∀ (l : List Nat) (r : List (List Cell)), mapME f l = Except.ok r →
      ∀ (i : Nat) (y : List Cell), r.get? i = some y →
        ∃ x, l.get? i = some x ∧ f x = Except.ok y := by
  intro l
  induction l with
  | nil =>
    intro r h i y hy
    simp only [mapME, Except.ok.injEq] at h
    subst h
    simp at hy
  | cons x xs ih =>
    intro r h i y hy
    simp only [mapME, except_bind_ok, pure, Except.pure, Except.ok.injEq] at h
    obtain ⟨z, hz, ys, hys, hr⟩ := h
    subst hr
    cases i with
    | zero =>
      simp only [List.get?] at hy ⊢
      injection hy with hy
      subst hy
      exact ⟨x, rfl, hz⟩
    | succ i =>
      simp only [List.get?] at hy ⊢
      exact ih ys hys i y hy

/-- Full success inversion of `clusterStatics`: which keys the raw
indexing forced to exist, and the exact statics value produced. -/
theorem clusterStatics_ok_inv (region cluster_id : String) (d : ClusterDetails)
    (s : Statics) (h : clusterStatics region cluster_id d = Except.ok s) :
    (clusterTypeOf d = "PROVISIONED" →
      ∃ prov auth_config bngi azRaw swInfo kafka_version enhanced_monitoring n,
        d.Provisioned = some prov ∧
        prov.ClientAuthentication = some auth_config ∧
        prov.BrokerNodeGroupInfo = some bngi ∧
        bngi.BrokerAZDistribution = some azRaw ∧
        prov.CurrentBrokerSoftwareInfo = some swInfo ∧
        swInfo.KafkaVersion = some kafka_version ∧
        prov.EnhancedMonitoring = some enhanced_monitoring ∧
        prov.NumberOfBrokerNodes = some n ∧
        s = { clusterType := clusterTypeOf d
              baseInfo := [Cell.str region, Cell.str cluster_id,
                           Cell.str (azLabel azRaw),
                           Cell.str (authString auth_config),
                           Cell.tup kafka_version,
                           Cell.str enhanced_monitoring]
              numberOfBrokerNodes := n
              instanceType := (instanceTypeChain d).getD "N/A"
              volumeSize := (volumeSizeChain d).getD 0 }) ∧
    (clusterTypeOf d ≠ "PROVISIONED" →
      ∃ sv auth_config,
        d.Serverless = some sv ∧
        sv.ClientAuthentication = some auth_config ∧
        s = { clusterType := clusterTypeOf d
              baseInfo := [Cell.str region, Cell.str cluster_id,
                           Cell.str "Multiple AZ",
                           Cell.str (authString auth_config),
                           Cell.str "N/A",
                           Cell.str "N/A"]
              numberOfBrokerNodes := 1
              instanceType := "N/A"
              volumeSize := 0 }) := by
  constructor
  · intro hct
    simp only [clusterStatics] at h
    rw [if_pos hct] at h
    cases hP : d.Provisioned with
    | none => simp only [hP] at h; exact Except.noConfusion h
    | some prov =>
      simp only [hP] at h
      cases hA : prov.ClientAuthentication with
      | none => simp only [hA] at h; exact Except.noConfusion h
      | some auth_config =>
        simp only [hA] at h
        cases hB : prov.BrokerNodeGroupInfo with
        | none => simp only [hB] at h; exact Except.noConfusion h
        | some bngi =>
          simp only [hB] at h
          cases hZ : bngi.BrokerAZDistribution with
          | none => simp only [hZ] at h; exact Except.noConfusion h
          | some azRaw =>
            simp only [hZ] at h
            cases hS : prov.CurrentBrokerSoftwareInfo with
            | none => simp only [hS] at h; exact Except.noConfusion h
            | some swInfo =>
              simp only [hS] at h
              cases hK : swInfo.KafkaVersion with
              | none => simp only [hK] at h; exact Except.noConfusion h
              | some kafka_version =>
                simp only [hK] at h
                cases hM : prov.EnhancedMonitoring with
                | none => simp only [hM] at h; exact Except.noConfusion h
                | some enhanced_monitoring =>
                  simp only [hM] at h
                  cases hN : prov.NumberOfBrokerNodes with
                  | none => simp only [hN] at h; exact Except.noConfusion h
                  | some n =>
                    simp only [hN] at h
                    injection h with h
                    exact ⟨prov, auth_config, bngi, azRaw, swInfo, kafka_version,
                      enhanced_monitoring, n, rfl, hA, hB, hZ, hS, hK, hM, hN, h.symm⟩
  · intro hct
    simp only [clusterStatics] at h
    rw [if_neg hct] at h
    cases hV : d.Serverless with
    | none => simp only [hV] at h; exact Except.noConfusion h
    | some sv =>
      simp only [hV] at h
      cases hA : sv.ClientAuthentication with
      | none => simp only [hA] at h; exact Except.noConfusion h
      | some auth_config =>
        simp only [hA] at h
        injection h with h
        exact ⟨sv, auth_config, rfl, hA, h.symm⟩

/-- The statics carry a 6-element cluster-field prefix. -/
theorem clusterStatics_baseInfo_length (region cluster_id : String)
    (d : ClusterDetails) (s : Statics)
    (h : clusterStatics region cluster_id d = Except.ok s) :
    s.baseInfo.length = 6 := by
  have hinv := clusterStatics_ok_inv region cluster_id d s h
  by_cases hct : clusterTypeOf d = "PROVISIONED"
  · obtain ⟨_, _, _, _, _, _, _, _, _, _, _, _, _, _, _, _, hs⟩ := hinv.1 hct
    rw [hs]
    rfl
  · obtain ⟨_, _, _, _, hs⟩ := hinv.2 hct
    rw [hs]
    rfl

/-- The statics record the normalized cluster type. -/
theorem clusterStatics_clusterType (region cluster_id : String)
    (d : ClusterDetails) (s : Statics)
    (h : clusterStatics region cluster_id d = Except.ok s) :
    s.clusterType = clusterTypeOf d := by
  have hinv := clusterStatics_ok_inv region cluster_id d s h
  by_cases hct : clusterTypeOf d = "PROVISIONED"
  · obtain ⟨_, _, _, _, _, _, _, _, _, _, _, _, _, _, _, _, hs⟩ := hinv.1 hct
    rw [hs]
  · obtain ⟨_, _, _, _, hs⟩ := hinv.2 hct
    rw [hs]

/-- Success inversion of `processCluster`. -/
theorem processCluster_ok_inv (client : CloudwatchClient) (region cluster_id : String)
    (d : ClusterDetails) (rows : List (List Cell))
    (h : processCluster client region cluster_id d = Except.ok rows) :
    ∃ s, clusterStatics region cluster_id d = Except.ok s ∧
      mapME (mkRow client cluster_id s)
        (List.range' 1 (if s.clusterType = "PROVISIONED" then s.numberOfBrokerNodes else 1))
        = Except.ok rows := by
  simpa only [processCluster, except_bind_ok] using h

/-- Success inversion of `mkRow`. -/
theorem mkRow_ok (client : CloudwatchClient) (cluster_id : String) (s : Statics)
    (node_id : Nat) (row : List Cell)
    (h : mkRow client cluster_id s node_id = Except.ok row) :
    ∃ mets, rowMetrics client cluster_id s.clusterType node_id = Except.ok mets ∧
      row = (if node_id = 1 then s.baseInfo else List.replicate 6 (Cell.str "")) ++
            [Cell.nat node_id, Cell.str s.instanceType, Cell.nat s.volumeSize] ++ mets := by
  simp only [mkRow, except_bind_ok, pure, Except.pure, Except.ok.injEq] at h
  obtain ⟨mets, hm, hr⟩ := h
  exact ⟨mets, hm, hr.symm⟩

/-- Any successful `rowMetrics` carries one cell per configured metric:
4 average + 10 peak = 14. -/
theorem rowMetrics_ok_length (client : CloudwatchClient) (cluster_id clusterType : String)
    (node_id : Nat) (mets : List Cell)
    (h : rowMetrics client cluster_id clusterType node_id = Except.ok mets) :
    mets.length = 14 := by
  unfold rowMetrics at h
  split at h
  · simp only [except_bind_ok, pure, Except.pure, Except.ok.injEq] at h
    obtain ⟨avgs, ha, peaks, hp, hm⟩ := h
    subst hm
    have h1 : avgs.length = AVERAGE_METRICS.length := mapME_ok_length _ _ _ ha
    have h2 : peaks.length = PEAK_METRICS.length := mapME_ok_length _ _ _ hp
    simp [h1, h2, AVERAGE_METRICS, PEAK_METRICS]
  · injection h with h
    subst h
    rfl

/-- Every row a successful `processCluster` emits has exactly 23 cells:
6 cluster fields + 3 node fields + 4 average-metric cells + 10
peak-metric cells, for either topology. -/
theorem processCluster_row_width (client : CloudwatchClient) (region cluster_id : String)
    (d : ClusterDetails) (rows : List (List Cell))
    (h : processCluster client region cluster_id d = Except.ok rows) :
    ∀ row ∈ rows, row.length = 23 := by
  obtain ⟨s, hs, hmap⟩ := processCluster_ok_inv client region cluster_id d rows h
  intro row hrow
  obtain ⟨x, hx, hfx⟩ := mapME_ok_mem _ _ _ hmap row hrow
  obtain ⟨mets, hm, hre⟩ := mkRow_ok client cluster_id s x row hfx
  have hme : mets.length = 14 := rowMetrics_ok_length client cluster_id s.clusterType x mets hm
  have hb : s.baseInfo.length = 6 := clusterStatics_baseInfo_length region cluster_id d s hs
  subst hre
  by_cases hn : x = 1
  · rw [if_pos hn]
    simp [List.length_append, hb, hme]
  · rw [if_neg hn]
    simp [List.length_append, hme]

/-- C6: every row of one collection run has the same set and order of
columns as `create_dataframe`: the six cluster fields, the three node
fields, one "(avg)" column per configured average metric and one "(max)"
column per configured peak metric — regardless of topology (lines 289-292,
366-393; unsupported serverless metrics become 0-valued cells, never
omitted columns). -/
theorem run_rows_uniform_width (client : CloudwatchClient) (region : String)
    (instances : List (String × ClusterDetails)) (rows : List (List Cell))
    (h : get_msk_cluster_data client region instances = Except.ok rows) :
    ∀ row ∈ rows, row.length = createDataframeColumns.length := by
  have hc : createDataframeColumns.length = 23 := rfl
  rw [hc]
  induction instances generalizing rows with
  | nil =>
    simp only [get_msk_cluster_data, Except.ok.injEq] at h
    subst h
    intro row hrow
    simp at hrow
  | cons p rest ih =>
    obtain ⟨cluster_id, d⟩ := p
    simp only [get_msk_cluster_data, except_bind_ok, pure, Except.pure,
      Except.ok.injEq] at h
    obtain ⟨r1, h1, r2, h2, hr⟩ := h
    subst hr
    intro row hrow
    rcases List.mem_append.mp hrow with hm | hm
    · exact processCluster_row_width client region cluster_id d r1 h1 row hm
    · exact ih r2 h2 row hm

/-- Witness for C6 at a concrete one-cluster serverless run. -/
theorem run_rows_uniform_width_witness :
    flatServerlessRow.length = createDataframeColumns.length :=
  run_rows_uniform_width flatClient "r" [("sc", serverlessDetails)] [flatServerlessRow]
    rfl flatServerlessRow (List.mem_singleton.mpr rfl)

/-- C7: the number of rows emitted for a cluster equals its declared node
count — `NumberOfBrokerNodes` for PROVISIONED and 1 otherwise
(lines 364-365, 393). -/
theorem rows_match_declared_node_count (client : CloudwatchClient)
    (region cluster_id : String) (d : ClusterDetails) (rows : List (List Cell))
    (h : processCluster client region cluster_id d = Except.ok rows) :
    rows.length = declaredNodeCount d := by
  obtain ⟨s, hs, hmap⟩ := processCluster_ok_inv client region cluster_id d rows h
  have hlen := mapME_ok_length _ _ _ hmap
  rw [List.length_range'] at hlen
  have hct := clusterStatics_clusterType region cluster_id d s hs
  have hinv := clusterStatics_ok_inv region cluster_id d s hs
  rw [hlen, hct]
  by_cases hp : clusterTypeOf d = "PROVISIONED"
  · obtain ⟨prov, _, _, _, _, _, _, n, hP, _, _, _, _, _, _, hN, hseq⟩ := hinv.1 hp
    subst hseq
    simp only [declaredNodeCount, if_pos hp, hP]
    simp [hN]
  · simp [declaredNodeCount, if_neg hp]

/-- Witness for C7 at a concrete two-broker provisioned cluster. -/
theorem rows_match_declared_node_count_witness :
    ([flatProvisionedRow1, flatProvisionedRow2] : List (List Cell)).length
      = declaredNodeCount provisionedDetails2 :=
  rows_match_declared_node_count flatClient "r" "pc" provisionedDetails2
    [flatProvisionedRow1, flatProvisionedRow2] rfl

/-- C8: the first row of a cluster carries the populated cluster-level
fields (the base-info sextuple derived from the descriptor) and every
later row of the same cluster carries the empty string in all six
cluster-level columns (lines 366-372). -/
theorem first_row_cluster_fields (client : CloudwatchClient) (region cluster_id : String)
    (d : ClusterDetails) (rows : List (List Cell)) (s : Statics) (i : Nat) (r : List Cell)
    (hs : clusterStatics region cluster_id d = Except.ok s)
    (hp : processCluster client region cluster_id d = Except.ok rows)
    (hr : rows.get? i = some r) :
    r.take 6 = if i = 0 then s.baseInfo else List.replicate 6 (Cell.str "") := by
  obtain ⟨s', hs', hmap⟩ := processCluster_ok_inv client region cluster_id d rows hp
  rw [hs] at hs'
  injection hs' with hs'
  subst hs'
  obtain ⟨x, hx, hfx⟩ := mapME_ok_get _ _ _ hmap i r hr
  rw [List.get?_eq_getElem?] at hx
  have hilt : i < (if s.clusterType = "PROVISIONED" then s.numberOfBrokerNodes else 1) := by
    obtain ⟨hlt, _⟩ := List.getElem?_eq_some_iff.mp hx
    rwa [List.length_range'] at hlt
  rw [List.getElem?_range' 1 1 hilt] at hx
  injection hx with hx
  obtain ⟨mets, hm, hre⟩ := mkRow_ok client cluster_id s x r hfx
  have hb := clusterStatics_baseInfo_length region cluster_id d s hs
  subst hre
  by_cases h0 : i = 0
  · rw [if_pos h0]
    have hx1 : x = 1 := by omega
    rw [if_pos hx1, List.append_assoc]
    rw [show (6 : Nat) = s.baseInfo.length from hb.symm]
    exact List.take_left _ _
  · rw [if_neg h0]
    have hx1 : ¬(x = 1) := by omega
    rw [if_neg hx1, List.append_assoc]
    rw [show (6 : Nat) = (List.replicate 6 (Cell.str "")).length by simp]
    exact List.take_left _ _

/-- Witness for C8: the second row of the two-broker cluster carries six
empty strings. -/
theorem first_row_cluster_fields_witness :
    flatProvisionedRow2.take 6 = List.replicate 6 (Cell.str "") := by
  have h := first_row_cluster_fields flatClient "r" "pc" provisionedDetails2
    [flatProvisionedRow1, flatProvisionedRow2] provisionedStatics2 1 flatProvisionedRow2
    rfl rfl rfl
  simpa using h

/-- Counterexample to C9: a provisioned descriptor whose
`ClientAuthentication` key is absent — one of the claim's own examples —
makes the assembler raise a `KeyError` (the raw indexing of line 330) and
abort instead of substituting a sentinel and emitting the rows. -/
theorem assembler_missing_auth_aborts :
    processCluster flatClient "r" "pc" noAuthDetails
      = Except.error "KeyError: ClientAuthentication" := rfl

/-- C9 amended: the assembler substitutes sentinels only for the
`.get`-protected fields — a missing instance type becomes "N/A", a missing
storage volume size becomes 0, and authentication-mechanism flags missing
inside a present authentication configuration yield the label "None" — and
with those raw-indexed keys present it still emits the cluster's rows
(one row for a non-provisioned cluster); but raw-indexed keys such as
`ClientAuthentication` abort the run when absent. -/
theorem assembler_sentinel_scope (client : CloudwatchClient) (region cluster_id : String) :
    (∀ ac : AuthConfig, saslIamEnabled ac = false → saslScramEnabled ac = false →
        tlsEnabled ac = false → authString ac = "None") ∧
    (∀ (d : ClusterDetails) (s : Statics), clusterStatics region cluster_id d = Except.ok s →
        (instanceTypeChain d = none → s.instanceType = "N/A") ∧
        (volumeSizeChain d = none → s.volumeSize = 0)) ∧
    (∀ (d : ClusterDetails) (s : Statics), clusterStatics region cluster_id d = Except.ok s →
        clusterTypeOf d ≠ "PROVISIONED" →
        ∃ rows, processCluster client region cluster_id d = Except.ok rows ∧
          rows.length = 1) := by
  refine ⟨?_, ?_, ?_⟩
  · intro ac h1 h2 h3
    simp [authString, h1, h2, h3]
  · intro d s hs
    have hinv := clusterStatics_ok_inv region cluster_id d s hs
    by_cases hct : clusterTypeOf d = "PROVISIONED"
    · obtain ⟨_, _, _, _, _, _, _, _, _, _, _, _, _, _, _, _, hseq⟩ := hinv.1 hct
      subst hseq
      constructor
      · intro hc
        simp [hc]
      · intro hc
        simp [hc]
    · obtain ⟨_, _, _, _, hseq⟩ := hinv.2 hct
      subst hseq
      exact ⟨fun _ => rfl, fun _ => rfl⟩
  · intro d s hs hct
    have hct' := clusterStatics_clusterType region cluster_id d s hs
    have hrm : rowMetrics client cluster_id s.clusterType 1 = Except.ok
        (((AVERAGE_METRICS.map
            (fun metric => get_cloudwatch_serverless_metric client cluster_id metric false 1)) ++
          (PEAK_METRICS.map
            (fun metric => get_cloudwatch_serverless_metric client cluster_id metric true 1))).map
          Cell.num) := by
      unfold rowMetrics
      rw [if_neg (by rw [hct']; exact hct)]
    refine ⟨[s.baseInfo ++ [Cell.nat 1, Cell.str s.instanceType, Cell.nat s.volumeSize] ++
        (((AVERAGE_METRICS.map
            (fun metric => get_cloudwatch_serverless_metric client cluster_id metric false 1)) ++
          (PEAK_METRICS.map
            (fun metric => get_cloudwatch_serverless_metric client cluster_id metric true 1))).map
          Cell.num)], ?_, rfl⟩
    simp only [processCluster, except_bind_ok]
    refine ⟨s, hs, ?_⟩
    rw [if_neg (by rw [hct']; exact hct)]
    have hr1 : List.range' 1 1 = [1] := rfl
    rw [hr1]
    simp [mapME, mkRow, hrm, except_bind_ok, pure, Except.pure]

/-- Witness for the amended C9 at concrete descriptors: empty auth flags
label "None"; a descriptor with the optional instance-type/storage fields
absent yields sentinels "N/A" and 0 from the code; and the serverless
descriptor still produces its single row. -/
theorem assembler_sentinel_scope_witness :
    authString { Sasl := none, Tls := none } = "None" ∧
    sentinelStatics.instanceType = "N/A" ∧
    sentinelStatics.volumeSize = 0 ∧
    (∃ rows, processCluster flatClient "r" "sc" serverlessDetails = Except.ok rows ∧
      rows.length = 1) :=
  ⟨(assembler_sentinel_scope flatClient "r" "sc").1 { Sasl := none, Tls := none } rfl rfl rfl,
   ((assembler_sentinel_scope flatClient "r" "pc").2.1 sentinelDetails sentinelStatics rfl).1 rfl,
   ((assembler_sentinel_scope flatClient "r" "pc").2.1 sentinelDetails sentinelStatics rfl).2 rfl,
   (assembler_sentinel_scope flatClient "r" "sc").2.2 serverlessDetails serverlessStatics rfl
     (by decide)⟩

/-- C5 is violated by the code: the row assembler calls
`get_cloudwatch_serverless_metric(cloudwatch_client, cluster_id, metric,
is_peak, node_id)` (lines 388-391), so the broker `node_id` (always 1 for a
serverless cluster) binds to the `time_period` parameter and the serverless
queries use a 1-day window (`Period` 86400), while the provisioned path
keeps the default 7-day window (`Period` 604800). Against a probe backend
that answers 7 exactly when a query's `Period` is 604800 and 1 otherwise,
every serverless metric cell evaluates to 1 and every provisioned metric
cell to 7. -/
theorem serverless_invocation_uses_node_id_as_window :
    processCluster (periodProbe "sc") "r" "sc" serverlessDetails
      = Except.ok [[Cell.str "r", Cell.str "sc", Cell.str "Multiple AZ", Cell.str "None",
          Cell.str "N/A", Cell.str "N/A", Cell.nat 1, Cell.str "N/A", Cell.nat 0]
          ++ List.replicate 14 (Cell.num 1)] ∧
    processCluster (periodProbe "pc") "r" "pc" provisionedDetails1
      = Except.ok [[Cell.str "r", Cell.str "pc", Cell.str "Multiple AZ", Cell.str "None",
          Cell.tup "3.6.0", Cell.str "DEFAULT", Cell.nat 1, Cell.str "kafka.m5.large",
          Cell.nat 100] ++ List.replicate 14 (Cell.num 7)] := by
  constructor
  · have h : processCluster (periodProbe "sc") "r" "sc" serverlessDetails
        = Except.ok [[Cell.str "r", Cell.str "sc", Cell.str "Multiple AZ", Cell.str "None",
            Cell.str "N/A", Cell.str "N/A", Cell.nat 1, Cell.str "N/A", Cell.nat 0]
            ++ List.replicate 14 (Cell.num (0 + (0 + 1)))] := rfl
    rw [h]
    norm_num
  · rfl
